import Mathlib

/-!
Shallow embedding of the FlaskChat server (`app.py`): the connection
registry and message-routing engine.  Mutable module-level state
(`users`, `message_history`, `last_msg_time`) becomes an explicit
`ServerState`; each Socket.IO handler becomes a function from state and
inbound payload to the new state paired with the list of outbound
`emit` events it produced, in emission order.  Python dicts are modelled
as insertion-ordered association lists (assignment updates in place or
appends; iteration order is list order), `time.time()` values as `Rat`,
and the randomness used on connect (`random.randint`, `random.choice`)
as explicit parameters.
-/

namespace FlaskChat

/-- One record of the `users` dict: `{username, avatar, gender}`. -/
structure User where
  username : String
  avatar   : String
  gender   : String
deriving DecidableEq, Repr

/-- A public message as stored in `message_history` and broadcast as
`new_message`: `{username, avatar, message, timestamp}`. -/
structure Message where
  username  : String
  avatar    : String
  message   : String
  timestamp : String
deriving DecidableEq, Repr

/-- The payload of a `private_message` delivery:
`{from, to, avatar, message, timestamp}` (field `from` renamed to
`from_name` since `from` is a Lean keyword, `to` likewise). -/
structure PrivateMessage where
  from_name : String
  to_name   : String
  avatar    : String
  message   : String
  timestamp : String
deriving DecidableEq, Repr

/-- One entry of the `online_users_list` payload. -/
structure OnlineUser where
  username : String
  avatar   : String
deriving DecidableEq, Repr

/-- Where an emitted event is delivered: `self` is a plain `emit(...)`
to the requesting connection, `all` is `broadcast=True`,
`allExceptSender` is `broadcast=True, include_self=False`, and
`room sid` is `room=sid`. -/
inductive Target where
  | self
  | all
  | allExceptSender
  | room (sid : String)
deriving DecidableEq, Repr

/-- The outbound events the server emits, one constructor per event
name, carrying exactly the payload fields of `app.py`. -/
inductive Event where
  | set_username (username : String)
  | message_history (messages : List Message)
  | user_joined (username avatar : String)
  | user_left (username : String)
  | online_users_list (users : List OnlineUser)
  | new_message (data : Message)
  | username_updated (old_username new_username avatar : String)
  | avatar_updated (username avatar : String)
  | user_typing (username : String) (isTyping : Bool)
  | private_message (data : PrivateMessage)
deriving DecidableEq, Repr

/-- The module-level mutable state of `app.py`: `users` (sid to record),
`message_history` (a `deque(maxlen=150)`, head = oldest), and
`last_msg_time` (a `defaultdict(lambda: 0.0)`). -/
structure ServerState where
  users : List (String × User)
  message_history : List Message
  last_msg_time : List (String × Rat)
deriving DecidableEq, Repr

/-- Python dict lookup `d.get(k)` on an insertion-ordered assoc list. -/
def lookupA {α : Type} : List (String × α) → String → Option α
  | [], _ => none
  | (k, v) :: rest, key => if k = key then some v else lookupA rest key

/-- Python dict assignment `d[k] = v`: update in place if present
(keeping position), else append at the end. -/
def insertA {α : Type} : List (String × α) → String → α → List (String × α)
  | [], key, v => [(key, v)]
  | (k, w) :: rest, key, v =>
      if k = key then (k, v) :: rest else (k, w) :: insertA rest key v

/-- Python dict removal `d.pop(k, None)` (the value part is read
separately with `lookupA`); keys are unique so removing the first
occurrence is enough. -/
def eraseA {α : Type} : List (String × α) → String → List (String × α)
  | [], _ => []
  | (k, w) :: rest, key => if k = key then rest else (k, w) :: eraseA rest key

/-- Python `str.strip()`: drop leading and trailing whitespace
characters (defined over the character list so that it evaluates in the
kernel). -/
def strip (s : String) : String :=
  String.mk (((s.data.dropWhile Char.isWhitespace).reverse.dropWhile
      Char.isWhitespace).reverse)

/-- `MAX_HISTORY = 150`. -/
def MAX_HISTORY : Nat := 150

/-- `MIN_SECONDS_BETWEEN_MSGS = 0.25`. -/
def MIN_SECONDS_BETWEEN_MSGS : Rat := 1/4

/-- `_build_avatar(username, gender)`.  Every call site in `app.py`
passes a non-empty gender (chosen from boy/girl on connect, read back
from the record, or validated), so the random-default branch taken when
`gender` is falsy is never exercised and is not modelled. -/
def build_avatar (username gender : String) : String :=
  "https://avatar.iran.liara.run/public/" ++ gender ++ "?username=" ++ username

/-- `_online_users_payload()`: `users.values()` in insertion order. -/
def online_users_payload (users : List (String × User)) : List OnlineUser :=
  users.map (fun p => ⟨p.2.username, p.2.avatar⟩)

/-- The private-message target scan: first entry of `users` (in
insertion order) whose username matches, returning its sid. -/
def find_by_name : List (String × User) → String → Option String
  | [], _ => none
  | (sid, u) :: rest, target_username =>
      if u.username = target_username then some sid
      else find_by_name rest target_username

/-- `deque(maxlen=MAX_HISTORY).append`: add at the tail, dropping from
the head whenever the length would exceed the capacity. -/
def dequeAppend (l : List Message) (x : Message) : List Message :=
  let l' := l ++ [x]
  if l'.length ≤ MAX_HISTORY then l' else l'.drop (l'.length - MAX_HISTORY)

/-- Handler for `connect`.  `rand_num` stands for
`random.randint(1000, 9999)` and `rand_gender` for
`random.choice(["boy", "girl"])`.  Note the bare dict assignment
`users[request.sid] = ...`: a sid already present is silently
overwritten, there is no duplicate check. -/
def on_connect (st : ServerState) (sid : String) (rand_num : Nat)
    (rand_gender : String) : ServerState × List (Target × Event) :=
  let username := "User_" ++ Nat.repr rand_num
  let avatar_url := build_avatar username rand_gender
  let users' := insertA st.users sid ⟨username, avatar_url, rand_gender⟩
  ({ st with users := users' },
   [(Target.self, Event.set_username username),
    (Target.self, Event.message_history st.message_history),
    (Target.all, Event.user_joined username avatar_url),
    (Target.all, Event.online_users_list (online_users_payload users'))])

/-- Handler for `disconnect`: `users.pop(request.sid, None)`, then, if a
record was removed, broadcast `user_left` and the fresh presence list
(computed after the removal). -/
def on_disconnect (st : ServerState) (sid : String) :
    ServerState × List (Target × Event) :=
  match lookupA st.users sid with
  | none => (st, [])
  | some user =>
    let users' := eraseA st.users sid
    ({ st with users := users' },
     [(Target.all, Event.user_left user.username),
      (Target.all, Event.online_users_list (online_users_payload users'))])

/-- Handler for `send_message`.  The rate check runs before the user
lookup; reading `last_msg_time[request.sid]` on the defaultdict inserts
the default `0.0` for an unseen sid, and when the check passes the
entry is set to `now` before the sender or the body is examined. -/
def on_send_message (st : ServerState) (sid : String) (now : Rat)
    (message : Option String) (timestamp : String) :
    ServerState × List (Target × Event) :=
  let last := (lookupA st.last_msg_time sid).getD 0
  let lmt₀ := if (lookupA st.last_msg_time sid).isSome then st.last_msg_time
              else st.last_msg_time ++ [(sid, 0)]
  if now - last < MIN_SECONDS_BETWEEN_MSGS then
    ({ st with last_msg_time := lmt₀ }, [])
  else
    let lmt₁ := insertA lmt₀ sid now
    match lookupA st.users sid with
    | none => ({ st with last_msg_time := lmt₁ }, [])
    | some user =>
      let msg_text := strip ((message.getD ""))
      if msg_text = "" then ({ st with last_msg_time := lmt₁ }, [])
      else
        let message_data : Message :=
          ⟨user.username, user.avatar, msg_text, timestamp⟩
        ({ st with last_msg_time := lmt₁,
                   message_history := dequeAppend st.message_history message_data },
         [(Target.all, Event.new_message message_data)])

/-- Handler for `update_username`: no-op when the sender is unknown,
the trimmed new name is empty, or it equals the current name; otherwise
update the record (avatar rebuilt with the preserved gender) and
broadcast `username_updated` plus the fresh presence list. -/
def on_update_username (st : ServerState) (sid : String)
    (username : Option String) : ServerState × List (Target × Event) :=
  match lookupA st.users sid with
  | none => (st, [])
  | some user =>
    let old_username := user.username
    let new_username := strip (username.getD "")
    if new_username = "" ∨ new_username = old_username then (st, [])
    else
      let user' : User :=
        ⟨new_username, build_avatar new_username user.gender, user.gender⟩
      let users' := insertA st.users sid user'
      ({ st with users := users' },
       [(Target.all, Event.username_updated old_username new_username user'.avatar),
        (Target.all, Event.online_users_list (online_users_payload users'))])

/-- Handler for `update_avatar_gender`: no-op when the sender is unknown
or the payload gender is not boy/girl (a missing key, read as `none`,
is treated like any other invalid value); otherwise update gender and
avatar and broadcast `avatar_updated` plus the fresh presence list. -/
def on_update_avatar_gender (st : ServerState) (sid : String)
    (gender : Option String) : ServerState × List (Target × Event) :=
  match lookupA st.users sid with
  | none => (st, [])
  | some user =>
    let g := gender.getD ""
    if g = "boy" ∨ g = "girl" then
      let user' : User := ⟨user.username, build_avatar user.username g, g⟩
      let users' := insertA st.users sid user'
      ({ st with users := users' },
       [(Target.all, Event.avatar_updated user.username user'.avatar),
        (Target.all, Event.online_users_list (online_users_payload users'))])
    else (st, [])

/-- Handler for `typing`: broadcast to everyone but the sender; unknown
senders are dropped. -/
def on_typing (st : ServerState) (sid : String) (isTyping : Bool) :
    ServerState × List (Target × Event) :=
  match lookupA st.users sid with
  | none => (st, [])
  | some user =>
    (st, [(Target.allExceptSender, Event.user_typing user.username isTyping)])

/-- Handler for `send_private_message`.  `data.get("to")` and
`data.get("message")` are modelled as `Option String`; Python
truthiness makes both `None` and the empty string falsy, hence the
`getD ""` readings.  The `if not target_sid` guard is also a truthiness
test, so an empty-string sid (which a real gateway never assigns) would
be dropped too. -/
def on_private_message (st : ServerState) (sid : String)
    (to_field message : Option String) (timestamp : String) :
    ServerState × List (Target × Event) :=
  match lookupA st.users sid with
  | none => (st, [])
  | some sender =>
    let target_username := to_field.getD ""
    let msg_text := strip (message.getD "")
    if target_username = "" ∨ msg_text = "" then (st, [])
    else
      match find_by_name st.users target_username with
      | none => (st, [])
      | some target_sid =>
        if target_sid = "" then (st, [])
        else
          let message_data : PrivateMessage :=
            ⟨sender.username, target_username, sender.avatar, msg_text, timestamp⟩
          (st, [(Target.room target_sid, Event.private_message message_data),
                (Target.room sid, Event.private_message message_data)])

/-- An inbound event together with its payload and the ambient inputs
(`request.sid`, wall-clock time, the random draws) each handler reads. -/
inductive Op where
  | connect (sid : String) (rand_num : Nat) (rand_gender : String)
  | disconnect (sid : String)
  | send_message (sid : String) (now : Rat) (message : Option String)
      (timestamp : String)
  | update_username (sid : String) (username : Option String)
  | update_avatar_gender (sid : String) (gender : Option String)
  | typing (sid : String) (isTyping : Bool)
  | private_message (sid : String) (to_field : Option String)
      (message : Option String) (timestamp : String)
deriving DecidableEq, Repr

/-- Dispatch one inbound event to its handler. -/
def applyOp (st : ServerState) : Op → ServerState × List (Target × Event)
  | .connect sid n g => on_connect st sid n g
  | .disconnect sid => on_disconnect st sid
  | .send_message sid now m ts => on_send_message st sid now m ts
  | .update_username sid u => on_update_username st sid u
  | .update_avatar_gender sid g => on_update_avatar_gender st sid g
  | .typing sid b => on_typing st sid b
  | .private_message sid t m ts => on_private_message st sid t m ts

/-- The state at server start: every dict empty. -/
def initialState : ServerState := ⟨[], [], []⟩

/-- The state after processing a sequence of inbound events from
server start. -/
def runOps (ops : List Op) : ServerState :=
  ops.foldl (fun st op => (applyOp st op).1) initialState

/-- The state after processing a sequence of inbound events, together
with all outbound events produced along the way, in order. -/
def runOpsTrace (ops : List Op) : ServerState × List (Target × Event) :=
  ops.foldl (fun acc op =>
    let r := applyOp acc.1 op
    (r.1, acc.2 ++ r.2)) (initialState, [])

/-- Discriminator for send_message inbound events. -/
def isSendOp : Op → Bool
  | .send_message .. => true
  | _ => false

/-- Discriminator for new_message outbound events. -/
def isNewMessageEv : Target × Event → Bool
  | (_, Event.new_message _) => true
  | _ => false

/-- Sample identity: what a connect with draws 1111 and boy creates. -/
def userA : User := ⟨"User_1111", build_avatar "User_1111" "boy", "boy"⟩

/-- Sample identity: what a connect with draws 2222 and girl creates. -/
def userB : User := ⟨"User_2222", build_avatar "User_2222" "girl", "girl"⟩

/-- A sample stored public message. -/
def sampleMsg : Message := ⟨"User_1111", build_avatar "User_1111" "boy", "hi", "t0"⟩

/-- A state with one connected user. -/
def stA : ServerState := ⟨[("s1", userA)], [], []⟩

/-- A state with two connected users. -/
def stAB : ServerState := ⟨[("s1", userA), ("s2", userB)], [], []⟩

/-- A trace in which s1 connects and then submits a whitespace-only
message. -/
def c3ops : List Op :=
  [Op.connect "s1" 1111 "boy", Op.send_message "s1" 100 (some "   ") "t1"]

/-! ## Association-list lemmas -/

theorem lookupA_insertA_self {α : Type} (l : List (String × α)) (k : String)
    (v : α) : lookupA (insertA l k v) k = some v := by
  induction l with
  | nil => simp [insertA, lookupA]
  | cons p rest ih =>
    by_cases h : p.1 = k
    · simp [insertA, lookupA, h]
    · simp [insertA, lookupA, h, ih]

theorem lookupA_append_single {α : Type} (l : List (String × α)) (k : String)
    (v : α) (h : lookupA l k = none) : lookupA (l ++ [(k, v)]) k = some v := by
  induction l with
  | nil => simp [lookupA]
  | cons p rest ih =>
    by_cases hp : p.1 = k
    · simp [lookupA, hp] at h
    · simp [lookupA, hp] at h ⊢
      exact ih h

/-! ## HistoryBuffer lemmas -/

theorem dequeAppend_length_le (l : List Message) (x : Message) :
    (dequeAppend l x).length ≤ MAX_HISTORY := by
  simp only [dequeAppend]
  split
  · rename_i h; exact h
  · simp only [List.length_drop]; omega

theorem dequeAppend_of_length_lt (l : List Message) (x : Message)
    (h : l.length < MAX_HISTORY) : dequeAppend l x = l ++ [x] := by
  simp only [dequeAppend]
  rw [if_pos]
  simp only [List.length_append, List.length_singleton]
  omega

theorem dequeAppend_of_length_eq (l : List Message) (x : Message)
    (h : l.length = MAX_HISTORY) : dequeAppend l x = l.tail ++ [x] := by
  unfold dequeAppend
  have hlen : (l ++ [x]).length = MAX_HISTORY + 1 := by
    simp only [List.length_append, List.length_singleton]
    omega
  have hgt : ¬ (l ++ [x]).length ≤ MAX_HISTORY := by omega
  have hdrop : (l ++ [x]).length - MAX_HISTORY = 1 := by omega
  have hne : l ≠ [] := by
    intro hnil
    rw [hnil] at h
    simp [MAX_HISTORY] at h
  simp only [hgt, if_false, hdrop]
  cases l with
  | nil => exact absurd rfl hne
  | cons a as => simp [List.drop]

/-- Each handler either leaves the history unchanged or appends to it
through the bounded deque. -/
theorem applyOp_message_history (st : ServerState) (op : Op) :
    (applyOp st op).1.message_history = st.message_history ∨
    ∃ x, (applyOp st op).1.message_history = dequeAppend st.message_history x := by
  cases op with
  | connect sid n g => left; rfl
  | disconnect sid =>
    left
    simp only [applyOp, on_disconnect]
    split <;> rfl
  | send_message sid now m ts =>
    simp only [applyOp, on_send_message]
    split
    · left; rfl
    · split
      · left; rfl
      · split
        · left; rfl
        · right; exact ⟨_, rfl⟩
  | update_username sid u =>
    left
    simp only [applyOp, on_update_username]
    split
    · rfl
    · split <;> rfl
  | update_avatar_gender sid g =>
    left
    simp only [applyOp, on_update_avatar_gender]
    split
    · rfl
    · split <;> rfl
  | typing sid b =>
    left
    simp only [applyOp, on_typing]
    split <;> rfl
  | private_message sid t m ts =>
    left
    simp only [applyOp, on_private_message]
    split
    · rfl
    · split
      · rfl
      · split
        · rfl
        · split <;> rfl

theorem applyOp_history_le (st : ServerState) (op : Op)
    (h : st.message_history.length ≤ MAX_HISTORY) :
    (applyOp st op).1.message_history.length ≤ MAX_HISTORY := by
  rcases applyOp_message_history st op with heq | ⟨x, heq⟩
  · rw [heq]; exact h
  · rw [heq]; exact dequeAppend_length_le _ _

theorem foldl_history_le (ops : List Op) (st : ServerState)
    (h : st.message_history.length ≤ MAX_HISTORY) :
    (ops.foldl (fun st op => (applyOp st op).1) st).message_history.length
      ≤ MAX_HISTORY := by
  induction ops generalizing st with
  | nil => exact h
  | cons op rest ih =>
    exact ih _ (applyOp_history_le st op h)

/-! ## RateLimiter / send_message lemmas -/

theorem on_send_message_users_eq (st : ServerState) (sid : String) (now : Rat)
    (m : Option String) (ts : String) :
    (on_send_message st sid now m ts).1.users = st.users := by
  simp only [on_send_message]
  split
  · rfl
  · split
    · rfl
    · split <;> rfl

theorem on_send_message_entry_after_pass (st : ServerState) (sid : String)
    (now : Rat) (m : Option String) (ts : String)
    (hr : ¬ (now - (lookupA st.last_msg_time sid).getD 0
              < MIN_SECONDS_BETWEEN_MSGS)) :
    lookupA (on_send_message st sid now m ts).1.last_msg_time sid = some now := by
  simp only [on_send_message]
  rw [if_neg hr]
  split
  · exact lookupA_insertA_self ..
  · split
    · exact lookupA_insertA_self ..
    · exact lookupA_insertA_self ..

theorem on_send_message_events_blocked (st : ServerState) (sid : String)
    (now : Rat) (m : Option String) (ts : String)
    (hr : now - (lookupA st.last_msg_time sid).getD 0
            < MIN_SECONDS_BETWEEN_MSGS) :
    (on_send_message st sid now m ts).2 = [] := by
  simp only [on_send_message]
  rw [if_pos hr]

theorem on_send_message_events_empty_body (st : ServerState) (sid : String)
    (now : Rat) (m : Option String) (ts : String)
    (hm : strip (m.getD "") = "") :
    (on_send_message st sid now m ts).2 = [] := by
  simp only [on_send_message]
  by_cases hr : now - (lookupA st.last_msg_time sid).getD 0
                  < MIN_SECONDS_BETWEEN_MSGS
  · rw [if_pos hr]
  · rw [if_neg hr]
    cases hu : lookupA st.users sid with
    | none => rfl
    | some user => simp [hm]

theorem on_send_message_events_accepted (st : ServerState) (sid : String)
    (u : User) (now : Rat) (m : Option String) (ts : String)
    (hu : lookupA st.users sid = some u)
    (hr : ¬ (now - (lookupA st.last_msg_time sid).getD 0
              < MIN_SECONDS_BETWEEN_MSGS))
    (hm : strip (m.getD "") ≠ "") :
    (on_send_message st sid now m ts).2
      = [(Target.all, Event.new_message
            ⟨u.username, u.avatar, strip (m.getD ""), ts⟩)] := by
  simp only [on_send_message, hu]
  rw [if_neg hr, if_neg hm]

theorem keys_insertA {α : Type} (l : List (String × α)) (k : String) (v : α)
    (k' : String) (h : k' ∈ (insertA l k v).map Prod.fst) :
    k' ∈ l.map Prod.fst ∨ k' = k := by
  induction l with
  | nil =>
    simp [insertA] at h
    exact Or.inr h
  | cons p rest ih =>
    obtain ⟨pk, pv⟩ := p
    simp only [insertA] at h
    by_cases hp : pk = k
    · rw [if_pos hp] at h
      simp only [List.map_cons, List.mem_cons] at h ⊢
      rcases h with h | h
      · exact Or.inl (Or.inl h)
      · exact Or.inl (Or.inr h)
    · rw [if_neg hp] at h
      simp only [List.map_cons, List.mem_cons] at h ⊢
      rcases h with h | h
      · exact Or.inl (Or.inl h)
      · rcases ih h with h2 | h2
        · exact Or.inl (Or.inr h2)
        · exact Or.inr h2

theorem keys_ratelimiter_read (st : ServerState) (sid k : String)
    (h : k ∈ (if (lookupA st.last_msg_time sid).isSome then st.last_msg_time
              else st.last_msg_time ++ [(sid, (0 : Rat))]).map Prod.fst) :
    k ∈ st.last_msg_time.map Prod.fst ∨ k = sid := by
  by_cases hs : (lookupA st.last_msg_time sid).isSome
  · rw [if_pos hs] at h
    exact Or.inl h
  · rw [if_neg hs] at h
    simp only [List.map_append, List.map_cons, List.map_nil,
      List.mem_append, List.mem_cons, List.not_mem_nil, or_false] at h
    exact h

theorem on_send_message_keys (st : ServerState) (sid : String) (now : Rat)
    (m : Option String) (ts : String) (k : String)
    (h : k ∈ (on_send_message st sid now m ts).1.last_msg_time.map Prod.fst) :
    k ∈ st.last_msg_time.map Prod.fst ∨ k = sid := by
  simp only [on_send_message] at h
  by_cases hr : now - (lookupA st.last_msg_time sid).getD 0
                  < MIN_SECONDS_BETWEEN_MSGS
  · rw [if_pos hr] at h
    exact keys_ratelimiter_read st sid k h
  · rw [if_neg hr] at h
    have hins : k ∈ (insertA
        (if (lookupA st.last_msg_time sid).isSome then st.last_msg_time
         else st.last_msg_time ++ [(sid, (0 : Rat))]) sid now).map Prod.fst := by
      cases hu : lookupA st.users sid with
      | none => simpa only [hu] using h
      | some user =>
        by_cases hm : strip (m.getD "") = ""
        · simp only [hu, hm, if_pos rfl] at h
          exact h
        · simp only [hu, hm, if_false] at h
          exact h
    rcases keys_insertA _ _ _ _ hins with h2 | h2
    · exact keys_ratelimiter_read st sid k h2
    · exact Or.inr h2

theorem applyOp_last_msg_time_eq (st : ServerState) (op : Op)
    (h : isSendOp op = false) :
    (applyOp st op).1.last_msg_time = st.last_msg_time := by
  cases op with
  | connect sid n g => rfl
  | disconnect sid =>
    simp only [applyOp, on_disconnect]
    split <;> rfl
  | send_message sid now m ts => simp [isSendOp] at h
  | update_username sid u =>
    simp only [applyOp, on_update_username]
    split
    · rfl
    · split <;> rfl
  | update_avatar_gender sid g =>
    simp only [applyOp, on_update_avatar_gender]
    split
    · rfl
    · split <;> rfl
  | typing sid b =>
    simp only [applyOp, on_typing]
    split <;> rfl
  | private_message sid t m ts =>
    simp only [applyOp, on_private_message]
    split
    · rfl
    · split
      · rfl
      · split
        · rfl
        · split <;> rfl

theorem applyOp_ratelimiter_keys (st : ServerState) (op : Op) (k : String)
    (h : k ∈ (applyOp st op).1.last_msg_time.map Prod.fst) :
    k ∈ st.last_msg_time.map Prod.fst ∨
    ∃ now m ts, op = Op.send_message k now m ts := by
  cases hsend : isSendOp op with
  | false =>
    rw [applyOp_last_msg_time_eq st op hsend] at h
    exact Or.inl h
  | true =>
    cases op with
    | send_message sid now m ts =>
      rcases on_send_message_keys st sid now m ts k h with h2 | h2
      · exact Or.inl h2
      · exact Or.inr ⟨now, m, ts, by rw [h2]⟩
    | connect sid n g => simp [isSendOp] at hsend
    | disconnect sid => simp [isSendOp] at hsend
    | update_username sid u => simp [isSendOp] at hsend
    | update_avatar_gender sid g => simp [isSendOp] at hsend
    | typing sid b => simp [isSendOp] at hsend
    | private_message sid t m ts => simp [isSendOp] at hsend

theorem foldl_ratelimiter_keys (ops : List Op) (st : ServerState) (k : String)
    (h : k ∈ ((ops.foldl (fun st op => (applyOp st op).1)
                st).last_msg_time.map Prod.fst)) :
    k ∈ st.last_msg_time.map Prod.fst ∨
    ∃ now m ts, Op.send_message k now m ts ∈ ops := by
  induction ops generalizing st with
  | nil => exact Or.inl h
  | cons op rest ih =>
    rcases ih (applyOp st op).1 h with h2 | ⟨now, m, ts, hmem⟩
    · rcases applyOp_ratelimiter_keys st op k h2 with h3 | ⟨now, m, ts, heq⟩
      · exact Or.inl h3
      · exact Or.inr ⟨now, m, ts, by rw [← heq]; exact List.mem_cons_self op rest⟩
    · exact Or.inr ⟨now, m, ts, List.mem_cons_of_mem op hmem⟩

theorem on_send_message_entry_isSome (st : ServerState) (sid : String)
    (now : Rat) (m : Option String) (ts : String) :
    (lookupA (on_send_message st sid now m ts).1.last_msg_time sid).isSome
      = true := by
  by_cases hr : now - (lookupA st.last_msg_time sid).getD 0
                  < MIN_SECONDS_BETWEEN_MSGS
  · simp only [on_send_message]
    rw [if_pos hr]
    cases hs : lookupA st.last_msg_time sid with
    | some t => simp [hs]
    | none =>
      simp only [hs, Option.isSome_none, Bool.false_eq_true, if_false]
      rw [lookupA_append_single st.last_msg_time sid (0 : Rat) hs]
      rfl
  · rw [on_send_message_entry_after_pass st sid now m ts hr]
    rfl

/-! ## Claim theorems -/

/-- Claim C4: for every sequence of inbound events the HistoryBuffer
holds at most 150 messages, and appending to a full buffer of 150
evicts exactly the oldest message while the relative order of the
remaining 150 (now at the front, followed by the new tail entry) is
preserved. -/
theorem history_bounded_and_oldest_evicted :
    (∀ ops : List Op, ((runOps ops).message_history).length ≤ MAX_HISTORY) ∧
    (∀ (l : List Message) (x : Message), l.length = MAX_HISTORY →
      dequeAppend l x = l.tail ++ [x]) := by
  refine ⟨fun ops => foldl_history_le ops initialState ?_,
          dequeAppend_of_length_eq⟩
  simp [initialState]

/-- Witness for C4 at concrete inputs: a one-connect run and a full
buffer of 150 copies of a sample message. -/
theorem history_bounded_and_oldest_evicted_witness :
    ((runOps [Op.connect "s1" 1111 "boy"]).message_history).length
      ≤ MAX_HISTORY ∧
    (List.replicate MAX_HISTORY sampleMsg).length = MAX_HISTORY ∧
    dequeAppend (List.replicate MAX_HISTORY sampleMsg) sampleMsg
      = (List.replicate MAX_HISTORY sampleMsg).tail ++ [sampleMsg] :=
  ⟨history_bounded_and_oldest_evicted.1 _, by simp,
   history_bounded_and_oldest_evicted.2 _ _ (by simp)⟩

/-- Claim C1 counterexample: a connect for a sid that is already stored
does not fail with any duplicate-connection error; it silently replaces
the stored record and emits the four normal connect events. -/
theorem on_connect_duplicate_no_error_cex :
    lookupA stA.users "s1" = some userA ∧
    lookupA (on_connect stA "s1" 2222 "girl").1.users "s1"
      = some ⟨"User_2222", build_avatar "User_2222" "girl", "girl"⟩ ∧
    (on_connect stA "s1" 2222 "girl").2
      = [(Target.self, Event.set_username "User_2222"),
         (Target.self, Event.message_history []),
         (Target.all,
          Event.user_joined "User_2222" (build_avatar "User_2222" "girl")),
         (Target.all, Event.online_users_list
            [⟨"User_2222", build_avatar "User_2222" "girl"⟩])] := by
  decide

/-- Claim C1 (amended): on_connect with a connection_id already present
in the store does not fail; it silently replaces the existing record
with the freshly generated identity and emits the normal connect
events. -/
theorem on_connect_duplicate_silently_replaces (st : ServerState)
    (sid : String) (n : Nat) (g : String) (u : User)
    (h : lookupA st.users sid = some u) :
    lookupA (on_connect st sid n g).1.users sid
      = some ⟨"User_" ++ Nat.repr n, build_avatar ("User_" ++ Nat.repr n) g, g⟩ ∧
    (on_connect st sid n g).2 =
      [(Target.self, Event.set_username ("User_" ++ Nat.repr n)),
       (Target.self, Event.message_history st.message_history),
       (Target.all, Event.user_joined ("User_" ++ Nat.repr n)
          (build_avatar ("User_" ++ Nat.repr n) g)),
       (Target.all, Event.online_users_list
          (online_users_payload (insertA st.users sid
            ⟨"User_" ++ Nat.repr n,
             build_avatar ("User_" ++ Nat.repr n) g, g⟩)))] :=
  ⟨lookupA_insertA_self .., rfl⟩

/-- Witness for the amended C1 at a concrete duplicate connect. -/
theorem on_connect_duplicate_silently_replaces_witness :
    lookupA stA.users "s1" = some userA ∧
    (lookupA (on_connect stA "s1" 2222 "girl").1.users "s1"
      = some ⟨"User_" ++ Nat.repr 2222,
              build_avatar ("User_" ++ Nat.repr 2222) "girl", "girl"⟩ ∧
    (on_connect stA "s1" 2222 "girl").2 =
      [(Target.self, Event.set_username ("User_" ++ Nat.repr 2222)),
       (Target.self, Event.message_history stA.message_history),
       (Target.all, Event.user_joined ("User_" ++ Nat.repr 2222)
          (build_avatar ("User_" ++ Nat.repr 2222) "girl")),
       (Target.all, Event.online_users_list
          (online_users_payload (insertA stA.users "s1"
            ⟨"User_" ++ Nat.repr 2222,
             build_avatar ("User_" ++ Nat.repr 2222) "girl", "girl"⟩)))]) :=
  ⟨by decide,
   on_connect_duplicate_silently_replaces stA "s1" 2222 "girl" userA (by decide)⟩

/-- Claim C2 counterexample: a send_message from a connection_id that is
not in the IdentityStore emits nothing, but it does mutate shared
state: the RateLimiter table gains an entry for that id. -/
theorem unknown_connection_send_mutates_ratelimiter_cex :
    lookupA initialState.users "s1" = none ∧
    (on_send_message initialState "s1" 100 (some "hi") "ts").2 = [] ∧
    (on_send_message initialState "s1" 100 (some "hi") "ts").1.last_msg_time
      ≠ initialState.last_msg_time := by
  with_unfolding_all decide

/-- Claim C2 (amended): for an unknown acting connection_id every
handler other than on_connect emits no outbound events; on_disconnect,
on_update_username, on_update_avatar_gender, on_typing and
on_private_message additionally leave the whole state unchanged, while
on_send_message leaves the IdentityStore and the HistoryBuffer
unchanged but may create or update the RateLimiter entry for the
unknown id. -/
theorem unknown_connection_handlers_noop (st : ServerState) (sid : String)
    (h : lookupA st.users sid = none) :
    on_disconnect st sid = (st, []) ∧
    (∀ u, on_update_username st sid u = (st, [])) ∧
    (∀ g, on_update_avatar_gender st sid g = (st, [])) ∧
    (∀ b, on_typing st sid b = (st, [])) ∧
    (∀ t m ts, on_private_message st sid t m ts = (st, [])) ∧
    (∀ now m ts, (on_send_message st sid now m ts).2 = [] ∧
       (on_send_message st sid now m ts).1.users = st.users ∧
       (on_send_message st sid now m ts).1.message_history
         = st.message_history) := by
  refine ⟨?_, ?_, ?_, ?_, ?_, ?_⟩
  · simp [on_disconnect, h]
  · intro u; simp [on_update_username, h]
  · intro g; simp [on_update_avatar_gender, h]
  · intro b; simp [on_typing, h]
  · intro t m ts; simp [on_private_message, h]
  · intro now m ts
    refine ⟨?_, on_send_message_users_eq .., ?_⟩
    · by_cases hr : now - (lookupA st.last_msg_time sid).getD 0
                      < MIN_SECONDS_BETWEEN_MSGS
      · exact on_send_message_events_blocked _ _ _ _ _ hr
      · simp only [on_send_message, h]
        rw [if_neg hr]
    · simp only [on_send_message, h]
      by_cases hr : now - (lookupA st.last_msg_time sid).getD 0
                      < MIN_SECONDS_BETWEEN_MSGS
      · rw [if_pos hr]
      · rw [if_neg hr]

/-- Witness for the amended C2 at a concrete unknown sid. -/
theorem unknown_connection_handlers_noop_witness :
    lookupA initialState.users "s1" = none ∧
    on_disconnect initialState "s1" = (initialState, []) ∧
    (on_send_message initialState "s1" 100 (some "hi") "ts").2 = [] :=
  ⟨by decide,
   (unknown_connection_handlers_noop initialState "s1" (by decide)).1,
   ((unknown_connection_handlers_noop initialState "s1"
      (by decide)).2.2.2.2.2 100 (some "hi") "ts").1⟩

/-- Claim C3 counterexample: after connecting and submitting only a
whitespace-only message, s1 has had no accepted public message (no
new_message event was produced and the history is empty), yet the
RateLimiter holds the entry s1 maps-to 100. -/
theorem ratelimiter_entry_without_accepted_message_cex :
    lookupA (runOpsTrace c3ops).1.last_msg_time "s1" = some 100 ∧
    (runOpsTrace c3ops).2.filter isNewMessageEv = [] ∧
    (runOpsTrace c3ops).1.message_history = [] := by
  with_unfolding_all decide

/-- Claim C3 (amended): at every reachable state the RateLimiter table
contains entries only for connection_ids on which send_message has been
invoked at least once (the entry is created on any send attempt — the
defaultdict read inserts the default and a passing rate check stores
now — even when no message is accepted), and every send_message
invocation leaves an entry for the acting id. -/
theorem ratelimiter_entries_only_for_send_attempts :
    (∀ (ops : List Op) (k : String),
        k ∈ ((runOps ops).last_msg_time.map Prod.fst) →
        ∃ now m ts, Op.send_message k now m ts ∈ ops) ∧
    (∀ (st : ServerState) (sid : String) (now : Rat) (m : Option String)
        (ts : String),
        (lookupA (on_send_message st sid now m ts).1.last_msg_time sid).isSome
          = true) := by
  constructor
  · intro ops k h
    rcases foldl_ratelimiter_keys ops initialState k h with h2 | h2
    · simp [initialState] at h2
    · exact h2
  · exact on_send_message_entry_isSome

/-- Witness for the amended C3 on the whitespace-only trace. -/
theorem ratelimiter_entries_only_for_send_attempts_witness :
    ("s1" ∈ ((runOps c3ops).last_msg_time.map Prod.fst)) ∧
    (∃ now m ts, Op.send_message "s1" now m ts ∈ c3ops) :=
  ⟨by with_unfolding_all decide,
   ratelimiter_entries_only_for_send_attempts.1 c3ops "s1"
     (by with_unfolding_all decide)⟩

/-- Claim C5: for a connected sender with a fresh (absent, hence
default 0) rate entry and non-empty trimmed bodies, a first send at
`t₁ ≥ 0.25` (satisfied by any wall-clock `time.time()` value) is
broadcast; a second send less than 0.25s later produces no
new_message; a second send at least 0.25s later is broadcast. -/
theorem rate_limit_spacing (st : ServerState) (sid : String) (u : User)
    (hu : lookupA st.users sid = some u)
    (hl : lookupA st.last_msg_time sid = none)
    (t₁ t₂ : Rat) (ht₁ : MIN_SECONDS_BETWEEN_MSGS ≤ t₁)
    (m₁ m₂ ts₁ ts₂ : String) (hm₁ : strip m₁ ≠ "") (hm₂ : strip m₂ ≠ "") :
    (on_send_message st sid t₁ (some m₁) ts₁).2
      = [(Target.all, Event.new_message ⟨u.username, u.avatar, strip m₁, ts₁⟩)] ∧
    (t₂ - t₁ < MIN_SECONDS_BETWEEN_MSGS →
      (on_send_message (on_send_message st sid t₁ (some m₁) ts₁).1 sid t₂
        (some m₂) ts₂).2 = []) ∧
    (MIN_SECONDS_BETWEEN_MSGS ≤ t₂ - t₁ →
      (on_send_message (on_send_message st sid t₁ (some m₁) ts₁).1 sid t₂
        (some m₂) ts₂).2
        = [(Target.all, Event.new_message ⟨u.username, u.avatar, strip m₂, ts₂⟩)]) := by
  have hr₁ : ¬ (t₁ - (lookupA st.last_msg_time sid).getD 0
                  < MIN_SECONDS_BETWEEN_MSGS) := by
    rw [hl]
    simp only [Option.getD_none, sub_zero]
    exact not_lt.mpr ht₁
  have hfst := on_send_message_events_accepted st sid u t₁ (some m₁) ts₁ hu hr₁
    (by simpa using hm₁)
  have hentry := on_send_message_entry_after_pass st sid t₁ (some m₁) ts₁ hr₁
  have husers : lookupA (on_send_message st sid t₁ (some m₁) ts₁).1.users sid
      = some u := by
    rw [on_send_message_users_eq]
    exact hu
  refine ⟨by simpa using hfst, ?_, ?_⟩
  · intro hlt
    apply on_send_message_events_blocked
    rw [hentry]
    simpa using hlt
  · intro hge
    have hr₂ : ¬ (t₂ - (lookupA (on_send_message st sid t₁ (some m₁)
        ts₁).1.last_msg_time sid).getD 0 < MIN_SECONDS_BETWEEN_MSGS) := by
      rw [hentry]
      simpa using not_lt.mpr hge
    have hsnd := on_send_message_events_accepted _ sid u t₂ (some m₂) ts₂
      husers hr₂ (by simpa using hm₂)
    simpa using hsnd

/-- Witness for C5 with sends at t₁ = 1 and t₂ = 2. -/
theorem rate_limit_spacing_witness :
    lookupA stA.users "s1" = some userA ∧
    lookupA stA.last_msg_time "s1" = none ∧
    MIN_SECONDS_BETWEEN_MSGS ≤ (1 : Rat) ∧
    strip "hi" ≠ "" ∧ strip "yo" ≠ "" ∧
    ((on_send_message stA "s1" 1 (some "hi") "t1").2
      = [(Target.all,
          Event.new_message ⟨userA.username, userA.avatar, strip "hi", "t1"⟩)] ∧
     ((2 : Rat) - 1 < MIN_SECONDS_BETWEEN_MSGS →
       (on_send_message (on_send_message stA "s1" 1 (some "hi") "t1").1 "s1" 2
         (some "yo") "t2").2 = []) ∧
     (MIN_SECONDS_BETWEEN_MSGS ≤ (2 : Rat) - 1 →
       (on_send_message (on_send_message stA "s1" 1 (some "hi") "t1").1 "s1" 2
         (some "yo") "t2").2
         = [(Target.all,
             Event.new_message ⟨userA.username, userA.avatar, strip "yo", "t2"⟩)])) :=
  ⟨by decide, by decide, by with_unfolding_all decide, by decide, by decide,
   rate_limit_spacing stA "s1" userA (by decide) (by decide) 1 2
     (by with_unfolding_all decide) "hi" "yo" "t1" "t2" (by decide) (by decide)⟩

/-- Claim C10: whenever the rate check passes, the last-send stamp for
the acting connection_id is set to now, whatever happens afterwards;
consequently a connected sender who submits a whitespace-only message
and, less than 0.25s later, a non-empty one, gets neither broadcast. -/
theorem rate_stamp_updated_even_when_dropped :
    (∀ (st : ServerState) (sid : String) (now : Rat) (m : Option String)
        (ts : String),
        ¬ (now - (lookupA st.last_msg_time sid).getD 0
             < MIN_SECONDS_BETWEEN_MSGS) →
        lookupA (on_send_message st sid now m ts).1.last_msg_time sid
          = some now) ∧
    (∀ (st : ServerState) (sid : String) (u : User) (t₁ t₂ : Rat)
        (ts₁ ts₂ m₂ : String),
        lookupA st.users sid = some u →
        ¬ (t₁ - (lookupA st.last_msg_time sid).getD 0
             < MIN_SECONDS_BETWEEN_MSGS) →
        t₂ - t₁ < MIN_SECONDS_BETWEEN_MSGS → strip m₂ ≠ "" →
        (on_send_message st sid t₁ (some "   ") ts₁).2 = [] ∧
        (on_send_message (on_send_message st sid t₁ (some "   ") ts₁).1 sid t₂
          (some m₂) ts₂).2 = []) := by
  constructor
  · exact on_send_message_entry_after_pass
  · intro st sid u t₁ t₂ ts₁ ts₂ m₂ hu hr₁ hlt hm₂
    have hfirst : (on_send_message st sid t₁ (some "   ") ts₁).2 = [] :=
      on_send_message_events_empty_body st sid t₁ (some "   ") ts₁ (by decide)
    have hentry := on_send_message_entry_after_pass st sid t₁ (some "   ") ts₁ hr₁
    refine ⟨hfirst, ?_⟩
    apply on_send_message_events_blocked
    rw [hentry]
    simpa using hlt

/-- Witness for C10: stamp set for an unknown sender, and the
whitespace-then-real scenario at t₁ = t₂ = 1. -/
theorem rate_stamp_updated_even_when_dropped_witness :
    (¬ ((100 : Rat) - (lookupA initialState.last_msg_time "s1").getD 0
          < MIN_SECONDS_BETWEEN_MSGS)) ∧
    lookupA (on_send_message initialState "s1" 100 (some "hi")
        "ts").1.last_msg_time "s1" = some 100 ∧
    (lookupA stA.users "s1" = some userA ∧
     (¬ ((1 : Rat) - (lookupA stA.last_msg_time "s1").getD 0
           < MIN_SECONDS_BETWEEN_MSGS)) ∧
     ((1 : Rat) - 1 < MIN_SECONDS_BETWEEN_MSGS) ∧
     strip "yo" ≠ "" ∧
     ((on_send_message stA "s1" 1 (some "   ") "t1").2 = [] ∧
      (on_send_message (on_send_message stA "s1" 1 (some "   ") "t1").1 "s1" 1
        (some "yo") "t2").2 = [])) :=
  ⟨by with_unfolding_all decide,
   rate_stamp_updated_even_when_dropped.1 initialState "s1" 100 (some "hi") "ts"
     (by with_unfolding_all decide),
   by decide, by with_unfolding_all decide, by with_unfolding_all decide,
   by decide,
   rate_stamp_updated_even_when_dropped.2 stA "s1" userA 1 1 "t1" "t2" "yo"
     (by decide) (by with_unfolding_all decide) (by with_unfolding_all decide)
     (by decide)⟩

/-- Claim C6: a private message from a connected sender to a name that
find_by_name resolves produces exactly two private_message deliveries —
one to the resolved target sid and one back to the sender — both with
the identical payload (sender's name, the target name, sender's current
avatar, trimmed body, timestamp), and the state (in particular the
HistoryBuffer) is unchanged. -/
theorem private_message_two_identical_deliveries (st : ServerState)
    (sid : String) (sender : User) (hs : lookupA st.users sid = some sender)
    (to_name m ts : String) (hto : to_name ≠ "") (hm : strip m ≠ "")
    (target_sid : String)
    (hfind : find_by_name st.users to_name = some target_sid)
    (hts : target_sid ≠ "") :
    on_private_message st sid (some to_name) (some m) ts =
      (st,
       [(Target.room target_sid, Event.private_message
           ⟨sender.username, to_name, sender.avatar, strip m, ts⟩),
        (Target.room sid, Event.private_message
           ⟨sender.username, to_name, sender.avatar, strip m, ts⟩)]) := by
  simp only [on_private_message, hs, Option.getD_some]
  rw [if_neg (by simp [hto, hm])]
  simp only [hfind]
  rw [if_neg hts]

/-- Witness for C6: s1 (named User_1111) messages User_2222, resolved
to s2. -/
theorem private_message_two_identical_deliveries_witness :
    lookupA stAB.users "s1" = some userA ∧
    ("User_2222" : String) ≠ "" ∧ strip " hello " ≠ "" ∧
    find_by_name stAB.users "User_2222" = some "s2" ∧
    ("s2" : String) ≠ "" ∧
    on_private_message stAB "s1" (some "User_2222") (some " hello ") "t" =
      (stAB,
       [(Target.room "s2", Event.private_message
           ⟨userA.username, "User_2222", userA.avatar, strip " hello ", "t"⟩),
        (Target.room "s1", Event.private_message
           ⟨userA.username, "User_2222", userA.avatar, strip " hello ", "t"⟩)]) :=
  ⟨by decide, by decide, by decide, by decide, by decide,
   private_message_two_identical_deliveries stAB "s1" userA (by decide)
     "User_2222" " hello " "t" (by decide) (by decide) "s2" (by decide)
     (by decide)⟩

/-- Claim C7: a private message whose target name is empty, whose
trimmed body is empty, or whose target name resolves to no connected
user, produces zero outbound events and leaves the state unchanged. -/
theorem private_message_silent_drop (st : ServerState) (sid : String)
    (t m : Option String) (ts : String)
    (h : t.getD "" = "" ∨ strip (m.getD "") = "" ∨
         find_by_name st.users (t.getD "") = none) :
    on_private_message st sid t m ts = (st, []) := by
  cases hs : lookupA st.users sid with
  | none => simp [on_private_message, hs]
  | some sender =>
    simp only [on_private_message, hs]
    by_cases hc : t.getD "" = "" ∨ strip (m.getD "") = ""
    · rw [if_pos hc]
    · rw [if_neg hc]
      rcases h with h | h | h
      · exact absurd (Or.inl h) hc
      · exact absurd (Or.inr h) hc
      · simp [h]

/-- Witness for C7: a private message to a name nobody holds. -/
theorem private_message_silent_drop_witness :
    ((some "Nobody" : Option String).getD "" = "" ∨
     strip ((some "hi" : Option String).getD "") = "" ∨
     find_by_name stA.users ((some "Nobody" : Option String).getD "") = none) ∧
    on_private_message stA "s1" (some "Nobody") (some "hi") "t" = (stA, []) :=
  ⟨by decide,
   private_message_silent_drop stA "s1" (some "Nobody") (some "hi") "t"
     (by decide)⟩

/-- Claim C8: for a connected sid, update_username with a new name that
trims to empty or equals the current name is a no-op with no events;
otherwise the record gets the trimmed name and a recomputed avatar with
the gender preserved, and a username_updated event followed by a fresh
presence snapshot is broadcast to all. -/
theorem update_username_noop_or_broadcast (st : ServerState) (sid : String)
    (u : User) (hu : lookupA st.users sid = some u)
    (username : Option String) :
    (strip (username.getD "") = "" ∨ strip (username.getD "") = u.username →
      on_update_username st sid username = (st, [])) ∧
    (strip (username.getD "") ≠ "" → strip (username.getD "") ≠ u.username →
      on_update_username st sid username =
        ({ st with users := (insertA st.users sid
             ⟨strip (username.getD ""),
              build_avatar (strip (username.getD "")) u.gender, u.gender⟩) },
         [(Target.all, Event.username_updated u.username
             (strip (username.getD ""))
             (build_avatar (strip (username.getD "")) u.gender)),
          (Target.all, Event.online_users_list (online_users_payload
             (insertA st.users sid
               ⟨strip (username.getD ""),
                build_avatar (strip (username.getD "")) u.gender,
                u.gender⟩)))])) := by
  constructor
  · intro h
    simp only [on_update_username, hu]
    rw [if_pos h]
  · intro h1 h2
    simp only [on_update_username, hu]
    rw [if_neg (not_or.mpr ⟨h1, h2⟩)]

/-- Witness for C8 at a rename of s1 to Alice (with surrounding
whitespace trimmed). -/
theorem update_username_noop_or_broadcast_witness :
    lookupA stA.users "s1" = some userA ∧
    ((strip ((some " Alice " : Option String).getD "") = "" ∨
      strip ((some " Alice " : Option String).getD "") = userA.username →
       on_update_username stA "s1" (some " Alice ") = (stA, [])) ∧
     (strip ((some " Alice " : Option String).getD "") ≠ "" →
      strip ((some " Alice " : Option String).getD "") ≠ userA.username →
       on_update_username stA "s1" (some " Alice ") =
         ({ stA with users := (insertA stA.users "s1"
              ⟨strip ((some " Alice " : Option String).getD ""),
               build_avatar (strip ((some " Alice " : Option String).getD ""))
                 userA.gender, userA.gender⟩) },
          [(Target.all, Event.username_updated userA.username
              (strip ((some " Alice " : Option String).getD ""))
              (build_avatar (strip ((some " Alice " : Option String).getD ""))
                userA.gender)),
           (Target.all, Event.online_users_list (online_users_payload
              (insertA stA.users "s1"
                ⟨strip ((some " Alice " : Option String).getD ""),
                 build_avatar (strip ((some " Alice " : Option String).getD ""))
                   userA.gender, userA.gender⟩)))]))) :=
  ⟨by decide,
   update_username_noop_or_broadcast stA "s1" userA (by decide) (some " Alice ")⟩

/-- Claim C9: for a connected sid, update_avatar_gender with a value
outside boy/girl leaves the record unchanged and emits nothing; with a
valid value it sets the gender, recomputes the avatar from the current
username, and broadcasts avatar_updated plus a fresh presence snapshot
to all. -/
theorem update_avatar_gender_validation (st : ServerState) (sid : String)
    (u : User) (hu : lookupA st.users sid = some u)
    (gender : Option String) :
    (gender.getD "" ≠ "boy" → gender.getD "" ≠ "girl" →
      on_update_avatar_gender st sid gender = (st, [])) ∧
    (∀ g, gender = some g → g = "boy" ∨ g = "girl" →
      on_update_avatar_gender st sid gender =
        ({ st with users := (insertA st.users sid
             ⟨u.username, build_avatar u.username g, g⟩) },
         [(Target.all,
           Event.avatar_updated u.username (build_avatar u.username g)),
          (Target.all, Event.online_users_list (online_users_payload
             (insertA st.users sid
               ⟨u.username, build_avatar u.username g, g⟩)))])) := by
  constructor
  · intro h1 h2
    simp only [on_update_avatar_gender, hu]
    rw [if_neg (not_or.mpr ⟨h1, h2⟩)]
  · intro g hg hvalid
    subst hg
    simp only [on_update_avatar_gender, hu, Option.getD_some]
    rw [if_pos hvalid]

/-- Witness for C9: an invalid value (other) is a no-op and a valid
value (girl) updates and broadcasts. -/
theorem update_avatar_gender_validation_witness :
    lookupA stA.users "s1" = some userA ∧
    on_update_avatar_gender stA "s1" (some "other") = (stA, []) ∧
    on_update_avatar_gender stA "s1" (some "girl") =
      ({ stA with users := (insertA stA.users "s1"
           ⟨userA.username, build_avatar userA.username "girl", "girl"⟩) },
       [(Target.all, Event.avatar_updated userA.username
           (build_avatar userA.username "girl")),
        (Target.all, Event.online_users_list (online_users_payload
           (insertA stA.users "s1"
             ⟨userA.username, build_avatar userA.username "girl",
              "girl"⟩)))]) :=
  ⟨by decide,
   (update_avatar_gender_validation stA "s1" userA (by decide)
      (some "other")).1 (by decide) (by decide),
   (update_avatar_gender_validation stA "s1" userA (by decide)
      (some "girl")).2 "girl" rfl (Or.inr rfl)⟩

end FlaskChat
